import Mathlib

/-!
Shallow embedding of the `JackClient` wrapper class from
`src/include/jack_wrapper/jack_wrapper.h` (the MIDI-capable draft, the one
the header installs), together with the MIDI helper calls it delegates to.

The external JACK server is modelled by a `ServerConfig` record holding the
responses the server would give to each call the wrapper makes
(`jack_client_open`, `jack_port_register`, `jack_activate`, `jack_get_ports`,
`jack_connect`), plus a `ServerState` tracking the connections the server
currently holds open (handle allocation for `jack_client_open`, release for
`jack_client_close`; closing a handle that is not open is use-after-release,
recorded in the `fault` flag).

Each method of the class is a function from the server config and the
client/server state to a `StepResult`: the observable event trace (console
logging, API calls), the updated states, and whether `exit(1)` was reached.
-/

namespace JackWrapper

/-- Responses of the external JACK server to the calls the wrapper makes.
`clientOpenOk` is whether `jack_client_open` returns a non-null client;
`serverStarted`, `nameNotUnique`, `serverFailed` are the status bits the
wrapper inspects; `assignedName` is what `jack_get_client_name` returns;
`inputPortOk`/`outputPortOk`/`midiPortOk` are whether each
`jack_port_register` call returns a non-null port; `activateOk` is whether
`jack_activate` returns 0; `capturePorts`/`playbackPorts` are the physical
port lists behind `jack_get_ports` (which returns NULL when no port
matches); `connectInputOk`/`connectOutputOk` are whether each
`jack_connect` call returns 0. -/
structure ServerConfig where
  clientOpenOk : Bool
  serverStarted : Bool
  nameNotUnique : Bool
  serverFailed : Bool
  assignedName : String
  sampleRate : Nat
  bufferSize : Nat
  inputPortOk : Bool
  outputPortOk : Bool
  midiPortOk : Bool
  activateOk : Bool
  capturePorts : List String
  playbackPorts : List String
  connectInputOk : Bool
  connectOutputOk : Bool
deriving DecidableEq

/-- Server-side connection bookkeeping: `nextHandle` is the next fresh client
handle `jack_client_open` hands out, `openHandles` the handles currently
open, and `fault` records undefined behavior (releasing a handle that is not
open, i.e. a double `jack_client_close`). -/
structure ServerState where
  nextHandle : Nat
  openHandles : Finset Nat
  fault : Bool
deriving DecidableEq

/-- Observable events of a method call: console output and JACK API calls,
in program order. -/
inductive Event where
  | logOpenFailed
  | logServerFailedMsg
  | logServerStarted
  | logNameAssigned (name : String)
  | setProcessCallback
  | setShutdownCallback
  | logSampleRate (r : Nat)
  | logBufferSize (b : Nat)
  | registerPort (portName portType : String) (isInput : Bool)
  | logNoMorePorts
  | activateCall
  | logCannotActivate
  | queryPhysicalCapture
  | logNoPhysicalCapture
  | connectInputFrom (src : String)
  | logCannotConnectInput
  | freePortList
  | queryPhysicalPlayback
  | logNoPhysicalPlayback
  | connectOutputTo (dst : String)
  | logCannotConnectOutput
  | logConnectedPlayback (p : String)
  | closeClient (h : Nat)
  | exitProcess (code : Nat)
deriving DecidableEq

/-- The fields of the `JackClient` object. Port pointers are modelled by
their nullness: `inputPort`/`outputPort` are `true` iff the registered
pointer is non-null. `midiSlot` models the two-level `jack_port_t
**midiInputPort`: `none` is a null outer pointer (the non-MIDI constructor
stores `nullptr`), `some b` is a valid outer pointer whose target port
pointer is non-null iff `b`. `client` is the stored `jack_client_t *`
(`none` before any `jack_client_open`). `ports` is the `const char **ports`
member that `run()` assigns the `jack_get_ports` results to. -/
structure ClientState where
  clientName : String
  midiInput : Bool
  midiSlot : Option Bool
  client : Option Nat
  inputPort : Bool
  outputPort : Bool
  ports : Option (List String)
  sampleRate : Nat
  bufferSize : Nat
deriving DecidableEq

/-- Result of running one method body: its event trace, the updated client
object and server state, and whether the body reached `exit(1)`. -/
structure StepResult where
  events : List Event
  cs : ClientState
  ss : ServerState
  exited : Bool
deriving DecidableEq

/-- JACK_DEFAULT_AUDIO_TYPE from the JACK headers. -/
def audioPortType : String := "32 bit float mono audio"

/-- JACK_DEFAULT_MIDI_TYPE from the JACK headers. -/
def midiPortType : String := "8 bit raw midi"

/-- `JackClient::open()`, transcribed line by line. `jack_client_open`
either fails (null client: log, optional server-failed message, `exit(1)`)
or allocates a fresh handle on the server. Then: optional "JACK server
started" log; if the name was not unique, `clientName` is replaced by the
server-assigned name and this is logged; the process and shutdown callbacks
are installed; sample rate and buffer size are read and stored; the
"input"/"output" audio ports and, when `midiInput`, the "midi_in" MIDI port
are registered. The final guard is the source's
`if (!inputPort || !outputPort || !midiInputPort)`: note it tests the outer
`midiInputPort` pointer, not the registered MIDI port. -/
def jackOpen (cfg : ServerConfig) (cs : ClientState) (ss : ServerState) : StepResult :=
  if cfg.clientOpenOk then
    let h := ss.nextHandle
    let ss1 : ServerState :=
      { ss with nextHandle := h + 1, openHandles := insert h ss.openHandles }
    let cs1 := { cs with client := some h }
    let startEv := if cfg.serverStarted then [Event.logServerStarted] else []
    let cs2 :=
      if cfg.nameNotUnique then { cs1 with clientName := cfg.assignedName } else cs1
    let nameEv :=
      if cfg.nameNotUnique then [Event.logNameAssigned cfg.assignedName] else []
    let cs3 :=
      { cs2 with sampleRate := cfg.sampleRate, bufferSize := cfg.bufferSize,
                 inputPort := cfg.inputPortOk, outputPort := cfg.outputPortOk }
    -- `*midiInputPort = jack_port_register(...)`: a write through the outer
    -- pointer (a no-op model when that pointer is null, which the source
    -- never guards; it is only reachable by passing nullptr to the MIDI
    -- constructor).
    let cs4 :=
      if cs3.midiInput then
        { cs3 with midiSlot := cs3.midiSlot.map (fun _ => cfg.midiPortOk) }
      else cs3
    let midiEv :=
      if cs3.midiInput then [Event.registerPort "midi_in" midiPortType true] else []
    let evs := startEv ++ nameEv ++
      [Event.setProcessCallback, Event.setShutdownCallback,
       Event.logSampleRate cfg.sampleRate, Event.logBufferSize cfg.bufferSize,
       Event.registerPort "input" audioPortType true,
       Event.registerPort "output" audioPortType false] ++ midiEv
    let guard := !cs4.inputPort || !cs4.outputPort || cs4.midiSlot.isNone
    { events := evs ++ (if guard then [Event.logNoMorePorts, Event.exitProcess 1] else []),
      cs := cs4, ss := ss1, exited := guard }
  else
    { events := [Event.logOpenFailed] ++
        (if cfg.serverFailed then [Event.logServerFailedMsg] else []) ++
        [Event.exitProcess 1],
      cs := cs, ss := ss, exited := true }

/-- Initial field values established by the constructors' initializer lists:
name and MIDI request stored, `client` not yet assigned, the caller's port
pointers (zero-initialized globals in the example client) null. -/
def initialClientState (name : String) (midiIn : Bool) (slot : Option Bool) : ClientState :=
  { clientName := name, midiInput := midiIn, midiSlot := slot, client := none,
    inputPort := false, outputPort := false, ports := none,
    sampleRate := 0, bufferSize := 0 }

/-- The four-argument constructor (no MIDI): stores `midiInputPort =
nullptr`, `midiInput = false`, then calls `open()` from the constructor
body. -/
def JackClientNoMidi (name : String) (cfg : ServerConfig) (ss : ServerState) : StepResult :=
  jackOpen cfg (initialClientState name false none) ss

/-- The five-argument constructor (MIDI requested): stores the caller's
`jack_port_t **` (modelled by `slot`), `midiInput = true`, then calls
`open()` from the constructor body. -/
def JackClientMidi (name : String) (slot : Option Bool) (cfg : ServerConfig)
    (ss : ServerState) : StepResult :=
  jackOpen cfg (initialClientState name true slot) ss

/-- `JackClient::run()`, transcribed line by line: `jack_activate` (nonzero
return: log and `exit(1)`); `jack_get_ports` for physical capture ports
(NULL, i.e. no match: log and `exit(1)`); `jack_connect` from `ports[0]` to
the input port (nonzero return: log, continue); `free(ports)`;
`jack_get_ports` for physical playback ports (NULL: log and `exit(1)`);
`jack_connect` from the output port to `ports[0]` (nonzero return: log,
continue); log the connected playback port; `free(ports)`. -/
def jackRun (cfg : ServerConfig) (cs : ClientState) (ss : ServerState) : StepResult :=
  if cfg.activateOk then
    match cfg.capturePorts with
    | [] =>
      { events := [Event.activateCall, Event.queryPhysicalCapture,
                   Event.logNoPhysicalCapture, Event.exitProcess 1],
        cs := { cs with ports := none }, ss := ss, exited := true }
    | c :: _crest =>
      let ev1 := [Event.activateCall, Event.queryPhysicalCapture,
                  Event.connectInputFrom c] ++
                 (if cfg.connectInputOk then [] else [Event.logCannotConnectInput]) ++
                 [Event.freePortList, Event.queryPhysicalPlayback]
      match cfg.playbackPorts with
      | [] =>
        { events := ev1 ++ [Event.logNoPhysicalPlayback, Event.exitProcess 1],
          cs := { cs with ports := none }, ss := ss, exited := true }
      | p :: prest =>
        { events := ev1 ++ [Event.connectOutputTo p] ++
            (if cfg.connectOutputOk then [] else [Event.logCannotConnectOutput]) ++
            [Event.logConnectedPlayback p, Event.freePortList],
          cs := { cs with ports := some (p :: prest) }, ss := ss, exited := false }
  else
    { events := [Event.activateCall, Event.logCannotActivate, Event.exitProcess 1],
      cs := cs, ss := ss, exited := true }

/-- `JackClient::close()`: unconditionally `jack_client_close(client)`. The
member `client` is not changed and no already-closed guard exists. Closing
a handle the server no longer holds open (or a never-assigned handle) is
use-after-release: the server state records a fault. -/
def jackClose (cs : ClientState) (ss : ServerState) : StepResult :=
  match cs.client with
  | none =>
    { events := [], cs := cs, ss := { ss with fault := true }, exited := false }
  | some h =>
    if h ∈ ss.openHandles then
      { events := [Event.closeClient h], cs := cs,
        ss := { ss with openHandles := ss.openHandles.erase h }, exited := false }
    else
      { events := [Event.closeClient h], cs := cs,
        ss := { ss with fault := true }, exited := false }

/-- `JackClient::getBufferSize()`. -/
def getBufferSize (cs : ClientState) : Nat := cs.bufferSize

/-- `JackClient::getSampleRate()`. -/
def getSampleRate (cs : ClientState) : Nat := cs.sampleRate

/-- `jack_midi_event_t`: time, size, and data bytes. -/
structure midi_event_t where
  time : Nat
  size : Nat
  buffer : List Nat
deriving DecidableEq

/-- `JackClient::getMidiEventCount`, delegating to
`jack_midi_get_event_count`: the number of events queued in the port
buffer. -/
def getMidiEventCount (portBuffer : List midi_event_t) : Nat :=
  portBuffer.length

/-- `jack_midi_event_get(&event, port_buffer, event_index)`: for an index in
range it fills `*event` with that event and returns 0; for an index out of
range it returns ENODATA (61) and leaves `*event` untouched. The first
component is the value of `*event` after the call, given its value `event`
before, and the second is the returned status. -/
def jack_midi_event_get (event : midi_event_t) (portBuffer : List midi_event_t)
    (eventIndex : Nat) : midi_event_t × Nat :=
  match portBuffer.get? eventIndex with
  | some e => (e, 0)
  | none => (event, 61)

/-- `JackClient::getMidiEvent`: declares an uninitialized local `event`
(its indeterminate stack contents are the `stackGarbage` argument), calls
`jack_midi_event_get` discarding its returned status, and returns `event`
unconditionally. -/
def getMidiEvent (stackGarbage : midi_event_t) (portBuffer : List midi_event_t)
    (eventIndex : Nat) : midi_event_t :=
  (jack_midi_event_get stackGarbage portBuffer eventIndex).1

/-- The number of `jack_port_register` calls in a trace for a given port
type and direction. -/
def countRegisteredKind (evs : List Event) (ptype : String) (isIn : Bool) : Nat :=
  evs.countP (fun e =>
    match e with
    | Event.registerPort _ t d => t == ptype && d == isIn
    | _ => false)

/-- A server configuration for which every call succeeds: the fake server
used in concrete runs. -/
def cfgAllOk : ServerConfig :=
  { clientOpenOk := true, serverStarted := false, nameNotUnique := false,
    serverFailed := false, assignedName := "client-01", sampleRate := 48000,
    bufferSize := 256, inputPortOk := true, outputPortOk := true,
    midiPortOk := true, activateOk := true,
    capturePorts := ["system:capture_1", "system:capture_2"],
    playbackPorts := ["system:playback_1", "system:playback_2"],
    connectInputOk := true, connectOutputOk := true }

/-- An initial server state: no connection open yet, first handle is 1. -/
def ss0 : ServerState := { nextHandle := 1, openHandles := ∅, fault := false }

/-- `cfgAllOk` except that the MIDI port registration fails. -/
def cfgMidiFail : ServerConfig := { cfgAllOk with midiPortOk := false }

/-- `cfgAllOk` except that the server exposes no physical capture port. -/
def cfgNoCapture : ServerConfig := { cfgAllOk with capturePorts := [] }

/-- `cfgAllOk` except that the server exposes no physical playback port. -/
def cfgNoPlayback : ServerConfig := { cfgAllOk with playbackPorts := [] }

/-- `cfgAllOk` except that the capture-side `jack_connect` call fails. -/
def cfgInConnectFail : ServerConfig := { cfgAllOk with connectInputOk := false }

/-- `cfgAllOk` except that the requested client name collides and the server
assigns the substitute name `"client-01"`. -/
def cfgCollide : ServerConfig := { cfgAllOk with nameNotUnique := true }

/-- The client object after a successful MIDI construction against
`cfgAllOk`, used as the pre-state of concrete `run()` calls. -/
def csOpened : ClientState := (JackClientMidi "client" (some false) cfgAllOk ss0).cs

/-- C1: open() was claimed to terminate fatally iff the connection or a
requested registration fails. The guard `!inputPort || !outputPort ||
!midiInputPort` tests the outer MIDI pointer instead of the registered
ports, so (a) the non-MIDI constructor, whose `midiInputPort` member is
`nullptr`, reaches "No more JACK ports available!" and `exit(1)` even when
the connection and both audio registrations succeed, and (b) a MIDI client
whose MIDI registration fails (null port written through the valid outer
pointer) passes the guard and open() does not terminate. -/
theorem open_guard_tests_wrong_pointer :
    (JackClientNoMidi "c" cfgAllOk ss0).exited = true ∧
    Event.logNoMorePorts ∈ (JackClientNoMidi "c" cfgAllOk ss0).events ∧
    (JackClientNoMidi "c" cfgAllOk ss0).cs.inputPort = true ∧
    (JackClientNoMidi "c" cfgAllOk ss0).cs.outputPort = true ∧
    (JackClientMidi "c" (some false) cfgMidiFail ss0).exited = false ∧
    (JackClientMidi "c" (some false) cfgMidiFail ss0).cs.midiSlot = some false := by
  decide

/-- C2 counterexample: close() is not idempotent. After a successful
construction (which opens handle 1), a first close() releases handle 1
without fault, but a second close() calls `jack_client_close` again on the
same, already-released handle — a use-after-release fault, not a no-op. -/
theorem close_twice_faults :
    (jackClose (JackClientMidi "c" (some false) cfgAllOk ss0).cs
        (JackClientMidi "c" (some false) cfgAllOk ss0).ss).ss.fault = false ∧
    (jackClose
        (jackClose (JackClientMidi "c" (some false) cfgAllOk ss0).cs
            (JackClientMidi "c" (some false) cfgAllOk ss0).ss).cs
        (jackClose (JackClientMidi "c" (some false) cfgAllOk ss0).cs
            (JackClientMidi "c" (some false) cfgAllOk ss0).ss).ss).ss.fault = true ∧
    (jackClose
        (jackClose (JackClientMidi "c" (some false) cfgAllOk ss0).cs
            (JackClientMidi "c" (some false) cfgAllOk ss0).ss).cs
        (jackClose (JackClientMidi "c" (some false) cfgAllOk ss0).cs
            (JackClientMidi "c" (some false) cfgAllOk ss0).ss).ss).events =
      [Event.closeClient 1] := by
  decide

/-- C2 amended: close() unconditionally releases the stored handle with no
idempotence guard. For any client whose stored handle the server holds
open, the first close() releases exactly that handle (no fault), and a
second close() re-invokes the release on the now-closed handle, which
faults (use-after-release) instead of being a no-op. -/
theorem close_unguarded (cs : ClientState) (ss : ServerState) (hdl : Nat)
    (hc : cs.client = some hdl) (hm : hdl ∈ ss.openHandles) (hf : ss.fault = false) :
    (jackClose cs ss).ss.openHandles = ss.openHandles.erase hdl ∧
    (jackClose cs ss).ss.fault = false ∧
    (jackClose (jackClose cs ss).cs (jackClose cs ss).ss).ss.fault = true := by
  simp [jackClose, hc, hm, hf, Finset.not_mem_erase]

/-- Witness for `close_unguarded` at a concrete client and server state. -/
theorem close_unguarded_witness :
    (jackClose { clientName := "c", midiInput := false, midiSlot := none,
                 client := some 1, inputPort := true, outputPort := true,
                 ports := none, sampleRate := 48000, bufferSize := 256 }
        { nextHandle := 2, openHandles := {1}, fault := false }).ss.openHandles =
      ({1} : Finset Nat).erase 1 ∧
    (jackClose { clientName := "c", midiInput := false, midiSlot := none,
                 client := some 1, inputPort := true, outputPort := true,
                 ports := none, sampleRate := 48000, bufferSize := 256 }
        { nextHandle := 2, openHandles := {1}, fault := false }).ss.fault = false ∧
    (jackClose
        (jackClose { clientName := "c", midiInput := false, midiSlot := none,
                     client := some 1, inputPort := true, outputPort := true,
                     ports := none, sampleRate := 48000, bufferSize := 256 }
            { nextHandle := 2, openHandles := {1}, fault := false }).cs
        (jackClose { clientName := "c", midiInput := false, midiSlot := none,
                     client := some 1, inputPort := true, outputPort := true,
                     ports := none, sampleRate := 48000, bufferSize := 256 }
            { nextHandle := 2, openHandles := {1}, fault := false }).ss).ss.fault = true :=
  close_unguarded _ _ 1 rfl (by decide) rfl

/-- C10: getMidiEvent ignores the status returned by `jack_midi_event_get`.
For every index at or beyond the buffer's event count the underlying call
returns a nonzero status (ENODATA) and does not fill the event, yet
getMidiEvent still returns the event record — the local variable's
indeterminate stack contents — with no error surfaced. -/
theorem getMidiEvent_ignores_status (stackGarbage : midi_event_t)
    (portBuffer : List midi_event_t) (eventIndex : Nat)
    (h : getMidiEventCount portBuffer ≤ eventIndex) :
    (jack_midi_event_get stackGarbage portBuffer eventIndex).2 ≠ 0 ∧
    getMidiEvent stackGarbage portBuffer eventIndex = stackGarbage := by
  have hnone : portBuffer[eventIndex]? = none :=
    List.getElem?_eq_none h
  refine ⟨?_, ?_⟩
  · simp [jack_midi_event_get, hnone]
  · simp [getMidiEvent, jack_midi_event_get, hnone]

/-- Helper: open() stores the server-reported sample rate and buffer size
in the object's fields, whether or not the final port guard exits. -/
theorem jackOpen_engine_fields (cfg : ServerConfig) (cs : ClientState) (ss : ServerState)
    (h : cfg.clientOpenOk = true) :
    (jackOpen cfg cs ss).cs.sampleRate = cfg.sampleRate ∧
    (jackOpen cfg cs ss).cs.bufferSize = cfg.bufferSize := by
  cases hmi : cs.midiInput <;> cases hnn : cfg.nameNotUnique <;>
    simp [jackOpen, h, hmi, hnn]

/-- Helper: run() never writes the sampleRate or bufferSize fields. -/
theorem jackRun_preserves_engine_fields (cfg : ServerConfig) (cs : ClientState)
    (ss : ServerState) :
    (jackRun cfg cs ss).cs.sampleRate = cs.sampleRate ∧
    (jackRun cfg cs ss).cs.bufferSize = cs.bufferSize := by
  cases ha : cfg.activateOk
  · simp [jackRun, ha]
  · cases hcp : cfg.capturePorts with
    | nil => simp [jackRun, ha, hcp]
    | cons c cr =>
      cases hpp : cfg.playbackPorts with
      | nil => simp [jackRun, ha, hcp, hpp]
      | cons p pr => simp [jackRun, ha, hcp, hpp]

/-- C3: whenever the connection is established, open() makes exactly one
audio input registration, exactly one audio output registration, and
exactly one MIDI input registration iff MIDI was requested at
construction. -/
theorem open_registers_ports (cfg : ServerConfig) (cs : ClientState) (ss : ServerState)
    (h : cfg.clientOpenOk = true) :
    countRegisteredKind (jackOpen cfg cs ss).events audioPortType true = 1 ∧
    countRegisteredKind (jackOpen cfg cs ss).events audioPortType false = 1 ∧
    countRegisteredKind (jackOpen cfg cs ss).events midiPortType true =
      (if cs.midiInput then 1 else 0) := by
  cases hss : cfg.serverStarted <;> cases hnn : cfg.nameNotUnique <;>
    cases hmi : cs.midiInput <;>
    (simp [jackOpen, h, hss, hnn, hmi, countRegisteredKind, audioPortType,
       midiPortType, List.countP_append, List.countP_cons]
     refine ⟨?_, ?_, ?_⟩ <;> rintro a - (rfl | rfl) <;> rfl)

/-- Witness for `open_registers_ports`: the MIDI construction against the
all-succeeding server. -/
theorem open_registers_ports_witness :
    countRegisteredKind (jackOpen cfgAllOk (initialClientState "client" true (some false)) ss0).events
      audioPortType true = 1 ∧
    countRegisteredKind (jackOpen cfgAllOk (initialClientState "client" true (some false)) ss0).events
      audioPortType false = 1 ∧
    countRegisteredKind (jackOpen cfgAllOk (initialClientState "client" true (some false)) ss0).events
      midiPortType true =
      (if (initialClientState "client" true (some false)).midiInput then 1 else 0) :=
  open_registers_ports cfgAllOk (initialClientState "client" true (some false)) ss0 rfl

/-- C4: when activation succeeds and the server reports no physical capture
port, run() exits fatally with the no-physical-capture log before any
playback-port query appears in the trace; and with capture ports present
but no physical playback port, run() likewise exits fatally with the
no-physical-playback log — absence of either direction is fatal. -/
theorem run_checks_capture_first (cfg : ServerConfig) (cs : ClientState) (ss : ServerState)
    (ha : cfg.activateOk = true) :
    (cfg.capturePorts = [] →
      (jackRun cfg cs ss).exited = true ∧
      Event.logNoPhysicalCapture ∈ (jackRun cfg cs ss).events ∧
      Event.queryPhysicalPlayback ∉ (jackRun cfg cs ss).events) ∧
    (∀ c cr, cfg.capturePorts = c :: cr → cfg.playbackPorts = [] →
      (jackRun cfg cs ss).exited = true ∧
      Event.logNoPhysicalPlayback ∈ (jackRun cfg cs ss).events) := by
  refine ⟨?_, ?_⟩
  · intro hcp
    simp [jackRun, ha, hcp]
  · intro c cr hcp hpp
    cases hci : cfg.connectInputOk <;> simp [jackRun, ha, hcp, hpp, hci]

/-- Witness for `run_checks_capture_first`: the no-capture fake server and
the no-playback fake server. -/
theorem run_checks_capture_first_witness :
    ((jackRun cfgNoCapture csOpened ss0).exited = true ∧
      Event.logNoPhysicalCapture ∈ (jackRun cfgNoCapture csOpened ss0).events ∧
      Event.queryPhysicalPlayback ∉ (jackRun cfgNoCapture csOpened ss0).events) ∧
    ((jackRun cfgNoPlayback csOpened ss0).exited = true ∧
      Event.logNoPhysicalPlayback ∈ (jackRun cfgNoPlayback csOpened ss0).events) :=
  ⟨(run_checks_capture_first cfgNoCapture csOpened ss0 rfl).1 rfl,
   (run_checks_capture_first cfgNoPlayback csOpened ss0 rfl).2
     "system:capture_1" ["system:capture_2"] rfl rfl⟩

/-- C5: when activation succeeds, capture ports exist, and the capture-side
connect is rejected, run() logs the failure yet still queries the physical
playback ports, and when playback ports exist it attempts the playback
connection and returns without exiting — the rejection is localized. -/
theorem run_connect_failure_localized (cfg : ServerConfig) (cs : ClientState)
    (ss : ServerState) (c : String) (cr : List String)
    (ha : cfg.activateOk = true) (hcp : cfg.capturePorts = c :: cr)
    (hci : cfg.connectInputOk = false) :
    Event.logCannotConnectInput ∈ (jackRun cfg cs ss).events ∧
    Event.queryPhysicalPlayback ∈ (jackRun cfg cs ss).events ∧
    (∀ p pr, cfg.playbackPorts = p :: pr →
      Event.connectOutputTo p ∈ (jackRun cfg cs ss).events ∧
      (jackRun cfg cs ss).exited = false) := by
  rcases hpp : cfg.playbackPorts with _ | ⟨p, pr⟩ <;>
    cases hco : cfg.connectOutputOk <;>
    simp [jackRun, ha, hcp, hci, hpp, hco]

/-- Witness for `run_connect_failure_localized`: the fake server whose
capture-side connect fails. -/
theorem run_connect_failure_localized_witness :
    Event.logCannotConnectInput ∈ (jackRun cfgInConnectFail csOpened ss0).events ∧
    Event.queryPhysicalPlayback ∈ (jackRun cfgInConnectFail csOpened ss0).events ∧
    (Event.connectOutputTo "system:playback_1" ∈ (jackRun cfgInConnectFail csOpened ss0).events ∧
      (jackRun cfgInConnectFail csOpened ss0).exited = false) :=
  ⟨(run_connect_failure_localized cfgInConnectFail csOpened ss0
      "system:capture_1" ["system:capture_2"] rfl rfl rfl).1,
   (run_connect_failure_localized cfgInConnectFail csOpened ss0
      "system:capture_1" ["system:capture_2"] rfl rfl rfl).2.1,
   (run_connect_failure_localized cfgInConnectFail csOpened ss0
      "system:capture_1" ["system:capture_2"] rfl rfl rfl).2.2
     "system:playback_1" ["system:playback_2"] rfl⟩

/-- C7: every capture-side connection run() attempts is from the head of
the discovered physical capture list and every playback-side connection is
to the head of the discovered physical playback list, and for non-empty
discovered lists those index-0 connections are attempted. -/
theorem run_selects_first_port (cfg : ServerConfig) (cs : ClientState) (ss : ServerState)
    (ha : cfg.activateOk = true) :
    (∀ s, Event.connectInputFrom s ∈ (jackRun cfg cs ss).events →
      cfg.capturePorts.head? = some s) ∧
    (∀ d, Event.connectOutputTo d ∈ (jackRun cfg cs ss).events →
      cfg.playbackPorts.head? = some d) ∧
    (∀ c cr, cfg.capturePorts = c :: cr →
      Event.connectInputFrom c ∈ (jackRun cfg cs ss).events) ∧
    (∀ c cr p pr, cfg.capturePorts = c :: cr → cfg.playbackPorts = p :: pr →
      Event.connectOutputTo p ∈ (jackRun cfg cs ss).events) := by
  rcases hcp : cfg.capturePorts with _ | ⟨c, cr⟩ <;>
    rcases hpp : cfg.playbackPorts with _ | ⟨p, pr⟩ <;>
    cases hci : cfg.connectInputOk <;> cases hco : cfg.connectOutputOk <;>
    (simp [jackRun, ha, hcp, hpp, hci, hco]
     all_goals (intros; subst_vars; rfl))

/-- Witness for `run_selects_first_port` at the all-succeeding server. -/
theorem run_selects_first_port_witness :
    cfgAllOk.capturePorts.head? = some "system:capture_1" ∧
    Event.connectInputFrom "system:capture_1" ∈ (jackRun cfgAllOk csOpened ss0).events ∧
    Event.connectOutputTo "system:playback_1" ∈ (jackRun cfgAllOk csOpened ss0).events :=
  ⟨(run_selects_first_port cfgAllOk csOpened ss0 rfl).1 "system:capture_1" (by decide),
   (run_selects_first_port cfgAllOk csOpened ss0 rfl).2.2.1
     "system:capture_1" ["system:capture_2"] rfl,
   (run_selects_first_port cfgAllOk csOpened ss0 rfl).2.2.2
     "system:capture_1" ["system:capture_2"] "system:playback_1" ["system:playback_2"]
     rfl rfl⟩

/-- C6: after a connection-establishing open(), getSampleRate and
getBufferSize return exactly the server-reported values captured at open()
time, and they still return those values after any subsequent run()
against any server responses — run() leaves both stored fields
unchanged. -/
theorem engine_params_snapshot (cfg cfg2 : ServerConfig) (cs : ClientState)
    (ss ss2 : ServerState) (h : cfg.clientOpenOk = true) :
    getSampleRate (jackOpen cfg cs ss).cs = cfg.sampleRate ∧
    getBufferSize (jackOpen cfg cs ss).cs = cfg.bufferSize ∧
    getSampleRate (jackRun cfg2 (jackOpen cfg cs ss).cs ss2).cs = cfg.sampleRate ∧
    getBufferSize (jackRun cfg2 (jackOpen cfg cs ss).cs ss2).cs = cfg.bufferSize := by
  obtain ⟨h1, h2⟩ := jackOpen_engine_fields cfg cs ss h
  obtain ⟨h3, h4⟩ := jackRun_preserves_engine_fields cfg2 (jackOpen cfg cs ss).cs ss2
  exact ⟨h1, h2, h3.trans h1, h4.trans h2⟩

/-- Witness for `engine_params_snapshot` at the all-succeeding server:
48000 and 256 are reported at open() time and still read back after
run(). -/
theorem engine_params_snapshot_witness :
    getSampleRate (jackOpen cfgAllOk (initialClientState "client" true (some false)) ss0).cs = cfgAllOk.sampleRate ∧
    getBufferSize (jackOpen cfgAllOk (initialClientState "client" true (some false)) ss0).cs = cfgAllOk.bufferSize ∧
    getSampleRate (jackRun cfgAllOk (jackOpen cfgAllOk (initialClientState "client" true (some false)) ss0).cs ss0).cs = cfgAllOk.sampleRate ∧
    getBufferSize (jackRun cfgAllOk (jackOpen cfgAllOk (initialClientState "client" true (some false)) ss0).cs ss0).cs = cfgAllOk.bufferSize :=
  engine_params_snapshot cfgAllOk cfgAllOk (initialClientState "client" true (some false)) ss0 ss0 rfl

/-- C8: when the connection is established, the name is reported
non-unique, the server-assigned substitute differs from the requested
name, and the port guard passes, open() returns without exiting, the
object's reported identity equals the substitute name and differs from the
requested one, and the substitution is logged. -/
theorem open_name_collision_surfaced (cfg : ServerConfig) (cs : ClientState)
    (ss : ServerState) (b : Bool)
    (ho : cfg.clientOpenOk = true) (hn : cfg.nameNotUnique = true)
    (hd : cfg.assignedName ≠ cs.clientName)
    (hi : cfg.inputPortOk = true) (hop : cfg.outputPortOk = true)
    (hsl : cs.midiSlot = some b) :
    (jackOpen cfg cs ss).exited = false ∧
    (jackOpen cfg cs ss).cs.clientName = cfg.assignedName ∧
    (jackOpen cfg cs ss).cs.clientName ≠ cs.clientName ∧
    Event.logNameAssigned cfg.assignedName ∈ (jackOpen cfg cs ss).events := by
  cases hss : cfg.serverStarted <;> cases hmi : cs.midiInput <;>
    simp [jackOpen, ho, hn, hi, hop, hsl, hss, hmi, hd]

/-- Witness for `open_name_collision_surfaced`: requesting "client" against
the colliding fake server yields the identity "client-01". -/
theorem open_name_collision_surfaced_witness :
    (jackOpen cfgCollide (initialClientState "client" true (some false)) ss0).exited = false ∧
    (jackOpen cfgCollide (initialClientState "client" true (some false)) ss0).cs.clientName = cfgCollide.assignedName ∧
    (jackOpen cfgCollide (initialClientState "client" true (some false)) ss0).cs.clientName ≠ (initialClientState "client" true (some false)).clientName ∧
    Event.logNameAssigned cfgCollide.assignedName ∈ (jackOpen cfgCollide (initialClientState "client" true (some false)) ss0).events :=
  open_name_collision_surfaced cfgCollide (initialClientState "client" true (some false))
    ss0 false rfl rfl (by decide) rfl rfl rfl

/-- C9: both constructors run open() themselves (they are exactly jackOpen
on the freshly initialized fields, so a constructed object always has its
client handle assigned), and an explicit open() after a successful
construction opens a second server connection and overwrites the stored
handle while the first connection stays open; close() afterwards releases
only the most recently opened connection, leaving the first one open. -/
theorem ctor_opens_and_reopen_leaks (name : String) (b : Bool)
    (cfg cfg2 : ServerConfig) (ss : ServerState)
    (h1 : cfg.clientOpenOk = true) (h2 : cfg.inputPortOk = true)
    (h3 : cfg.outputPortOk = true) (h4 : cfg2.clientOpenOk = true)
    (h5 : cfg2.inputPortOk = true) (h6 : cfg2.outputPortOk = true) :
    JackClientNoMidi name cfg ss = jackOpen cfg (initialClientState name false none) ss ∧
    JackClientMidi name (some b) cfg ss = jackOpen cfg (initialClientState name true (some b)) ss ∧
    (JackClientMidi name (some b) cfg ss).exited = false ∧
    (JackClientMidi name (some b) cfg ss).cs.client = some ss.nextHandle ∧
    (jackOpen cfg2 (JackClientMidi name (some b) cfg ss).cs
        (JackClientMidi name (some b) cfg ss).ss).exited = false ∧
    (jackOpen cfg2 (JackClientMidi name (some b) cfg ss).cs
        (JackClientMidi name (some b) cfg ss).ss).cs.client = some (ss.nextHandle + 1) ∧
    ss.nextHandle ∈ (jackOpen cfg2 (JackClientMidi name (some b) cfg ss).cs
        (JackClientMidi name (some b) cfg ss).ss).ss.openHandles ∧
    ss.nextHandle ∈ (jackClose
        (jackOpen cfg2 (JackClientMidi name (some b) cfg ss).cs
            (JackClientMidi name (some b) cfg ss).ss).cs
        (jackOpen cfg2 (JackClientMidi name (some b) cfg ss).cs
            (JackClientMidi name (some b) cfg ss).ss).ss).ss.openHandles ∧
    ss.nextHandle + 1 ∉ (jackClose
        (jackOpen cfg2 (JackClientMidi name (some b) cfg ss).cs
            (JackClientMidi name (some b) cfg ss).ss).cs
        (jackOpen cfg2 (JackClientMidi name (some b) cfg ss).cs
            (JackClientMidi name (some b) cfg ss).ss).ss).ss.openHandles := by
  refine ⟨rfl, rfl, ?_⟩
  cases hnn : cfg.nameNotUnique <;> cases hst : cfg.serverStarted <;>
    cases hnn2 : cfg2.nameNotUnique <;> cases hst2 : cfg2.serverStarted <;>
    simp [JackClientMidi, jackOpen, jackClose, initialClientState,
      h1, h2, h3, h4, h5, h6, hnn, hst, hnn2, hst2, Finset.mem_insert,
      Finset.mem_erase, Finset.not_mem_erase]

/-- Witness for `ctor_opens_and_reopen_leaks`: constructing against the
all-succeeding server, reopening, then closing leaves handle 1 open and
handle 2 released. -/
theorem ctor_opens_and_reopen_leaks_witness :
    JackClientNoMidi "client" cfgAllOk ss0 =
      jackOpen cfgAllOk (initialClientState "client" false none) ss0 ∧
    JackClientMidi "client" (some false) cfgAllOk ss0 =
      jackOpen cfgAllOk (initialClientState "client" true (some false)) ss0 ∧
    (JackClientMidi "client" (some false) cfgAllOk ss0).exited = false ∧
    (JackClientMidi "client" (some false) cfgAllOk ss0).cs.client = some ss0.nextHandle ∧
    (jackOpen cfgAllOk (JackClientMidi "client" (some false) cfgAllOk ss0).cs
        (JackClientMidi "client" (some false) cfgAllOk ss0).ss).exited = false ∧
    (jackOpen cfgAllOk (JackClientMidi "client" (some false) cfgAllOk ss0).cs
        (JackClientMidi "client" (some false) cfgAllOk ss0).ss).cs.client =
      some (ss0.nextHandle + 1) ∧
    ss0.nextHandle ∈ (jackOpen cfgAllOk (JackClientMidi "client" (some false) cfgAllOk ss0).cs
        (JackClientMidi "client" (some false) cfgAllOk ss0).ss).ss.openHandles ∧
    ss0.nextHandle ∈ (jackClose
        (jackOpen cfgAllOk (JackClientMidi "client" (some false) cfgAllOk ss0).cs
            (JackClientMidi "client" (some false) cfgAllOk ss0).ss).cs
        (jackOpen cfgAllOk (JackClientMidi "client" (some false) cfgAllOk ss0).cs
            (JackClientMidi "client" (some false) cfgAllOk ss0).ss).ss).ss.openHandles ∧
    ss0.nextHandle + 1 ∉ (jackClose
        (jackOpen cfgAllOk (JackClientMidi "client" (some false) cfgAllOk ss0).cs
            (JackClientMidi "client" (some false) cfgAllOk ss0).ss).cs
        (jackOpen cfgAllOk (JackClientMidi "client" (some false) cfgAllOk ss0).cs
            (JackClientMidi "client" (some false) cfgAllOk ss0).ss).ss).ss.openHandles :=
  ctor_opens_and_reopen_leaks "client" false cfgAllOk cfgAllOk ss0 rfl rfl rfl rfl rfl rfl

/-- Witness for `getMidiEvent_ignores_status`: a one-event buffer read at
index 1 yields the uninitialized local back. -/
theorem getMidiEvent_ignores_status_witness :
    (jack_midi_event_get { time := 7, size := 1, buffer := [144] }
        [{ time := 0, size := 1, buffer := [128] }] 1).2 ≠ 0 ∧
    getMidiEvent { time := 7, size := 1, buffer := [144] }
        [{ time := 0, size := 1, buffer := [128] }] 1 =
      { time := 7, size := 1, buffer := [144] } :=
  getMidiEvent_ignores_status _ _ 1 (by decide)

end JackWrapper
